import Mathlib

/-
Shallow embedding of the rpm-limiter library (src/lib/index.ts).

Times are modelled as integers (milliseconds); each invocation of a stateful
operation takes the current clock reading `now : Int` as an explicit argument
(one reading per invocation, standing for Date.now()).  The generator
`initTimeUntilNextMinute` becomes a state structure `Tracker` plus a step
function `Tracker.next`; the timer closure `initWaitFor` becomes an explicit
state `ExecState` with `waitFor` / `clearWaitFor` / `fireTimer` transitions,
where timer handles (NodeJS.Timeout values) are modelled as natural-number ids
handed out by the scheduler.
-/

namespace RpmLimiter

/-- State captured by the generator `initTimeUntilNextMinute(rpm, minuteMs)`:
the closed-over configuration `rpm`, `minuteMs` and the mutable locals
`start` (windowStartTime) and `count` (callCount). -/
structure Tracker where
  rpm : Int
  minuteMs : Int
  start : Int
  count : Int
deriving DecidableEq

/-- Creation of the generator: `let start = Date.now(); let count = 1` with the
captured configuration.  `now` is the Date.now() reading at the first resume. -/
def initTimeUntilNextMinute (rpm minuteMs now : Int) : Tracker :=
  { rpm := rpm, minuteMs := minuteMs, start := now, count := 1 }

/-- One `next()` of the generator, translated line by line from the loop body in
src/lib/index.ts: `end = start + minuteMs`; `remainder = end - Date.now()`;
`if (remainder < 0) { count = 1; start = Date.now() }`; `count++`;
`if (count > rpm) return remainder; return 0`.  Returns the yielded value and
the updated state. -/
def Tracker.next (g : Tracker) (now : Int) : Int × Tracker :=
  let windowEnd := g.start + g.minuteMs
  let remainder := windowEnd - now
  let g1 := if remainder < 0 then { g with count := 1, start := now } else g
  let g2 := { g1 with count := g1.count + 1 }
  if g2.count > g.rpm then (remainder, g2) else (0, g2)

/-- Yields of the generator over a sequence of clock readings, one reading per
`next()` call, threading the state. -/
def runTracker (g : Tracker) : List Int → List Int
  | [] => []
  | now :: rest =>
    let r := Tracker.next g now
    r.1 :: runTracker r.2 rest

/-- Modelled from the spec: the Window Tracker step contract as worded in
§4.1 (steps 1–6): compute `windowEnd = windowStartTime + windowDurationMs`;
`remaining = windowEnd - now()`; if `remaining < 0` reset (`callCount = 1`,
`windowStartTime = now()`); increment `callCount`; if `callCount > limit`
return the pre-reset `remaining`, else return `0`. -/
def specNextDelay (g : Tracker) (now : Int) : Int × Tracker :=
  let windowEnd := g.start + g.minuteMs
  let remaining := windowEnd - now
  let afterReset := if remaining < 0 then { g with count := 1, start := now } else g
  let afterIncrement := { afterReset with count := afterReset.count + 1 }
  if afterIncrement.count > g.rpm then (remaining, afterIncrement) else (0, afterIncrement)

/-- C3: each invocation of the Window Tracker's next-delay operation performs
exactly the spec's steps — compute remaining; reset on remaining < 0; increment
callCount; return the pre-reset remaining when callCount > limit, else 0 —
stated as equality of the code step with the spec-worded step on every state
and clock reading. -/
theorem next_eq_specStep (g : Tracker) (now : Int) :
    Tracker.next g now = specNextDelay g now := rfl

/-- C1: with limit L = 3 and window W = 250 created at t = 0, four calls all at
t = 0 yield [0, 0, 250, 250]: the 3rd call is already delayed, contradicting
the claim (and the code's own @example, which promises 0, 0, 0, W) that the
first L calls return 0 and the (L+1)-th is the first positive delay. -/
theorem timeUntilNextMinute_scenario_L3_W250 :
    runTracker (initTimeUntilNextMinute 3 250 0) [0, 0, 0, 0] = [0, 0, 250, 250] := by
  decide

/-- State of one `initWaitFor()` instance together with the timer system it
talks to: `timeoutId` is the closure variable (`null` initially), and
`pending` lists the ids of timers that have been scheduled via setTimeout and
have neither fired nor been cleared. -/
structure ExecState where
  timeoutId : Option Nat
  pending : List Nat
deriving DecidableEq

/-- Creation: `let timeoutId: null | NodeJS.Timeout = null`; no timer pending. -/
def initWaitFor : ExecState :=
  { timeoutId := none, pending := [] }

/-- Beginning a wait: `timeoutId = setTimeout(resolve, ms)`.  The scheduler
hands out a fresh handle `tid`; the closure overwrites `timeoutId` with it and
the timer joins the pending set.  The duration only determines when the timer
fires, which is abstracted into the separate `fireTimer` event. -/
def waitFor (e : ExecState) (tid : Nat) : ExecState :=
  { timeoutId := some tid, pending := tid :: e.pending }

/-- The timer `tid` fires naturally: the scheduled resumption runs and leaves
the pending set.  The closure variable `timeoutId` is not touched — nothing in
the source ever writes it back to null. -/
def fireTimer (e : ExecState) (tid : Nat) : ExecState :=
  { e with pending := e.pending.erase tid }

/-- `clearWaitFor`: `if (timeoutId !== null) clearTimeout(timeoutId)`.
clearTimeout removes the timer from the pending set (a no-op if that id is not
pending); `timeoutId` itself is left unchanged. -/
def clearWaitFor (e : ExecState) : ExecState :=
  match e.timeoutId with
  | none => e
  | some tid => { e with pending := e.pending.erase tid }

/-- C4 counterexample: start a wait (handle 0) on a fresh executor, then call
cancel.  The claim says the executor is back in the no-handle-recorded state;
in fact `timeoutId` still holds `some 0`. -/
theorem timeoutId_not_cleared_on_cancel :
    ¬ (clearWaitFor (waitFor initWaitFor 0)).timeoutId = none := by
  decide

/-- C4 amended: the handle is recorded when a wait begins, and firing naturally
or cancelling removes the scheduled resumption from the pending set, but
neither event clears the recorded handle — `timeoutId` keeps the last handle
(now inactive) until the next wait overwrites it. -/
theorem waitFor_records_fire_cancel_keep_handle (e : ExecState) (tid : Nat) :
    (waitFor e tid).timeoutId = some tid
    ∧ (fireTimer (waitFor e tid) tid).timeoutId = some tid
    ∧ (clearWaitFor (waitFor e tid)).timeoutId = some tid
    ∧ (fireTimer (waitFor e tid) tid).pending = e.pending
    ∧ (clearWaitFor (waitFor e tid)).pending = e.pending := by
  refine ⟨rfl, rfl, rfl, ?_, ?_⟩ <;>
    simp [waitFor, fireTimer, clearWaitFor, List.erase_cons_head]

/-- C4 witness: the amended statement at the concrete executor fresh from
`initWaitFor` and handle 0. -/
theorem waitFor_records_fire_cancel_keep_handle_witness :
    (waitFor initWaitFor 0).timeoutId = some 0
    ∧ (fireTimer (waitFor initWaitFor 0) 0).timeoutId = some 0
    ∧ (clearWaitFor (waitFor initWaitFor 0)).timeoutId = some 0
    ∧ (fireTimer (waitFor initWaitFor 0) 0).pending = initWaitFor.pending
    ∧ (clearWaitFor (waitFor initWaitFor 0)).pending = initWaitFor.pending :=
  waitFor_records_fire_cancel_keep_handle initWaitFor 0

/-- Combined state of one limiter: the tracker bound to a captured
`rateLimiter` reference and the single executor created by
`initRatePerMinuteLimiter`.  In src/lib the generator is captured when the
`rateLimiter` property is read (see `delaysPerAccess` for that getter); this
structure models one captured reference, as in the repository's tests. -/
structure RatePerMinuteLimiter where
  tracker : Tracker
  exec : ExecState
deriving DecidableEq

/-- One call of a captured `rateLimiter` reference: pull the next delay from
its generator, then start a wait for it (`await waitFor(timeout)`), the
scheduler handing out the fresh timer id `tid`. -/
def rateLimiter (l : RatePerMinuteLimiter) (now : Int) (tid : Nat) :
    Int × RatePerMinuteLimiter :=
  let r := Tracker.next l.tracker now
  (r.1, { tracker := r.2, exec := waitFor l.exec tid })

/-- The limiter's `clear()`: calls `clearWaitFor` on the bound executor. -/
def clear (l : RatePerMinuteLimiter) : RatePerMinuteLimiter :=
  { l with exec := clearWaitFor l.exec }

/-- src/lib exposes the limiting operation through
`get rateLimiter() { return createRateLimiter() }`, and `createRateLimiter`
builds a new `timeoutGenerator`.  Reading the property at clock time `now`
therefore yields an operation bound to a fresh tracker whose window starts at
its first call. -/
def accessRateLimiter (rpm minuteMs now : Int) : Tracker :=
  initTimeUntilNextMinute rpm minuteMs now

/-- Delays observed by a caller that reads the `rateLimiter` property anew for
every call (`limiter.rateLimiter()` each time): each call runs against a fresh
tracker. -/
def delaysPerAccess (rpm minuteMs : Int) (nows : List Int) : List Int :=
  nows.map fun t => (Tracker.next (accessRateLimiter rpm minuteMs t) t).1

/-- C1-adjacent evaluation for C2: with limit 2 and window 100, two calls at
t = 0 through the property getter each see a fresh tracker and both return 0
(the limiter never limits), while the create-once tracker mandated by the
claim returns [0, 100]. -/
theorem rateLimiter_getter_fresh_tracker_never_limits :
    delaysPerAccess 2 100 [0, 0] = [0, 0]
    ∧ runTracker (initTimeUntilNextMinute 2 100 0) [0, 0] = [0, 100] := by
  decide

/-- C6: `clear()` cancels the pending wait on the bound executor and leaves the
bound tracker's state untouched, so the delay produced by the next
`rateLimiter()` call is exactly what it would have been without the `clear()`. -/
theorem clear_preserves_tracker_state (l : RatePerMinuteLimiter) (now : Int) (tid : Nat) :
    (clear l).exec = clearWaitFor l.exec
    ∧ (clear l).tracker = l.tracker
    ∧ (rateLimiter (clear l) now tid).1 = (rateLimiter l now tid).1 := by
  exact ⟨rfl, rfl, rfl⟩

/-- C7: when no handle is recorded (in particular when no wait was ever
started), `cancel()` and the limiter's `clear()` are total no-ops: the
executor state and the whole limiter state are returned unchanged. -/
theorem clear_noop_when_no_handle (l : RatePerMinuteLimiter)
    (h : l.exec.timeoutId = none) :
    clearWaitFor l.exec = l.exec ∧ clear l = l := by
  have he : clearWaitFor l.exec = l.exec := by
    unfold clearWaitFor
    rw [h]
  exact ⟨he, by simp [clear, he]⟩

/-- C7 witness: the no-op at a freshly initialized limiter, which has no
recorded handle. -/
theorem clear_noop_when_no_handle_witness :
    clearWaitFor (RatePerMinuteLimiter.mk (initTimeUntilNextMinute 3 250 0) initWaitFor).exec
      = (RatePerMinuteLimiter.mk (initTimeUntilNextMinute 3 250 0) initWaitFor).exec
    ∧ clear (RatePerMinuteLimiter.mk (initTimeUntilNextMinute 3 250 0) initWaitFor)
      = RatePerMinuteLimiter.mk (initTimeUntilNextMinute 3 250 0) initWaitFor :=
  clear_noop_when_no_handle (RatePerMinuteLimiter.mk (initTimeUntilNextMinute 3 250 0) initWaitFor) rfl

/-- Closed form of the value yielded by one step: on a reset (remaining < 0)
the post-increment count is 2, otherwise it is the stored count plus one; the
remainder is returned exactly when that count exceeds the limit. -/
lemma next_fst (g : Tracker) (now : Int) :
    (Tracker.next g now).1 =
      if g.start + g.minuteMs - now < 0 then
        if 1 + 1 > g.rpm then g.start + g.minuteMs - now else 0
      else
        if g.count + 1 > g.rpm then g.start + g.minuteMs - now else 0 := by
  simp only [Tracker.next]
  split_ifs <;> simp_all

/-- C5: a reset invocation (remaining < 0) whose post-increment count (= 2)
exceeds the limit returns the pre-reset remaining, which is negative; and a
negative return value can only arise from an invocation that performed a
reset. -/
theorem reset_overLimit_returns_negative_remainder (g : Tracker) (now : Int) :
    (g.start + g.minuteMs - now < 0 → 2 > g.rpm →
      (Tracker.next g now).1 = g.start + g.minuteMs - now ∧ (Tracker.next g now).1 < 0)
    ∧ ((Tracker.next g now).1 < 0 → g.start + g.minuteMs - now < 0) := by
  constructor
  · intro h hlim
    rw [next_fst, if_pos h, if_pos (by omega : (1 : Int) + 1 > g.rpm)]
    exact ⟨rfl, h⟩
  · intro h
    rw [next_fst] at h
    by_cases h1 : g.start + g.minuteMs - now < 0
    · exact h1
    · rw [if_neg h1] at h
      split_ifs at h <;> omega

/-- C5 witness: limit 1, window 10, window started at 0, clock at 20 — the
invocation resets, overruns the limit, and returns the negative pre-reset
remainder -10. -/
theorem reset_overLimit_returns_negative_remainder_witness :
    ((Tracker.next (Tracker.mk 1 10 0 5) 20).1
        = (Tracker.mk 1 10 0 5).start + (Tracker.mk 1 10 0 5).minuteMs - 20
      ∧ (Tracker.next (Tracker.mk 1 10 0 5) 20).1 < 0)
    ∧ (Tracker.mk 1 10 0 5).start + (Tracker.mk 1 10 0 5).minuteMs - 20 < 0 :=
  ⟨(reset_overLimit_returns_negative_remainder (Tracker.mk 1 10 0 5) 20).1
      (by decide) (by decide),
   (reset_overLimit_returns_negative_remainder (Tracker.mk 1 10 0 5) 20).2 (by decide)⟩

/-- C9: with limit at least 2, an invocation that performs a window reset
returns 0 (the reset leaves count 1, the increment makes it 2, which does not
exceed the limit); consequently a negative value is only ever returned when
the limit is below 2. -/
theorem reset_returns_zero_when_rpm_ge_two (g : Tracker) (now : Int) :
    (2 ≤ g.rpm → g.start + g.minuteMs - now < 0 → (Tracker.next g now).1 = 0)
    ∧ ((Tracker.next g now).1 < 0 → g.rpm < 2) := by
  constructor
  · intro hrpm h
    rw [next_fst, if_pos h, if_neg (by omega : ¬ (1 : Int) + 1 > g.rpm)]
  · intro h
    rw [next_fst] at h
    split_ifs at h <;> omega

/-- C9 witness: limit 2 resetting at clock 20 returns 0; limit 1 returning the
negative value -10 indeed has limit below 2. -/
theorem reset_returns_zero_when_rpm_ge_two_witness :
    (Tracker.next (Tracker.mk 2 10 0 5) 20).1 = 0 ∧ (1 : Int) < 2 :=
  ⟨(reset_returns_zero_when_rpm_ge_two (Tracker.mk 2 10 0 5) 20).1 (by decide) (by decide),
   (reset_returns_zero_when_rpm_ge_two (Tracker.mk 1 10 0 5) 20).2 (by decide)⟩

/-- Stepping never changes the captured window duration. -/
lemma next_minuteMs (g : Tracker) (now : Int) :
    ((Tracker.next g now).2).minuteMs = g.minuteMs := by
  simp only [Tracker.next]
  split_ifs <;> rfl

/-- When the clock has not run backwards past the window start, the stepped
window start is still at or before the clock. -/
lemma next_start_le (g : Tracker) (now : Int) (h : g.start ≤ now) :
    ((Tracker.next g now).2).start ≤ now := by
  simp only [Tracker.next]
  split_ifs <;> simp_all

/-- One step's yield is bounded by the window duration when the clock is at or
past the window start. -/
lemma next_fst_le (g : Tracker) (now : Int) (hW : 0 ≤ g.minuteMs) (h : g.start ≤ now) :
    (Tracker.next g now).1 ≤ g.minuteMs := by
  rw [next_fst]
  split_ifs <;> omega

/-- C10: with a nonnegative window duration and a non-decreasing clock that
starts at or after the stored window start, every value the tracker yields is
at most the window duration. -/
theorem next_delay_le_window (g : Tracker) (t : Int) (nows : List Int)
    (hW : 0 ≤ g.minuteMs) (hstart : g.start ≤ t)
    (hchain : List.Chain (fun a b => a ≤ b) t nows) :
    ∀ d ∈ runTracker g nows, d ≤ g.minuteMs := by
  induction nows generalizing g t with
  | nil =>
    intro d hd
    simp [runTracker] at hd
  | cons n ns ih =>
    rcases List.chain_cons.mp hchain with ⟨htn, hchain2⟩
    intro d hd
    simp only [runTracker] at hd
    rcases List.mem_cons.mp hd with h | h
    · rw [h]
      exact next_fst_le g n hW (le_trans hstart htn)
    · have hW2 : 0 ≤ ((Tracker.next g n).2).minuteMs := by
        rw [next_minuteMs]; exact hW
      have := ih ((Tracker.next g n).2) n hW2
        (next_start_le g n (le_trans hstart htn)) hchain2 d h
      rw [next_minuteMs] at this
      exact this

/-- C10 witness: limit 3, window 250 starting at 0, monotone clock readings
0, 100, 300 — the first yielded delay is at most the window duration. -/
theorem next_delay_le_window_witness :
    (runTracker (initTimeUntilNextMinute 3 250 0) [0, 100, 300]).headI
      ≤ (initTimeUntilNextMinute 3 250 0).minuteMs :=
  next_delay_le_window (initTimeUntilNextMinute 3 250 0) 0 [0, 100, 300]
    (by decide) (by decide)
    (List.Chain.cons (by decide)
      (List.Chain.cons (by decide) (List.Chain.cons (by decide) List.Chain.nil)))
    _ (by decide)

/-- roundMiliseconds from src/lib/index.ts: `Math.round(ms / nearestMs) *
nearestMs`.  JS numbers are modelled as exact rationals; `round` rounds halves
up, as Math.round does. -/
def roundMiliseconds (ms nearestMs : ℚ) : ℚ :=
  (round (ms / nearestMs) : ℚ) * nearestMs

/-- C8: roundMiliseconds is idempotent for every value and every nonzero
multiple, and roundMiliseconds 666.666 5 = 665. -/
theorem roundMiliseconds_idempotent :
    (∀ x m : ℚ, m ≠ 0 → roundMiliseconds (roundMiliseconds x m) m = roundMiliseconds x m)
    ∧ roundMiliseconds (666.666 : ℚ) 5 = 665 := by
  constructor
  · intro x m hm
    unfold roundMiliseconds
    rw [mul_div_cancel_right₀ _ hm, round_intCast]
  · norm_num [roundMiliseconds, round_eq]

/-- C8 witness: idempotence exercised at value 666.666 and nonzero multiple 5. -/
theorem roundMiliseconds_idempotent_witness :
    roundMiliseconds (roundMiliseconds (666.666 : ℚ) 5) 5 = roundMiliseconds (666.666 : ℚ) 5 :=
  roundMiliseconds_idempotent.1 (666.666 : ℚ) 5 (by norm_num)

end RpmLimiter
